import Mathlib

/-!
# Verification of the GCC-Checker store-status service

A shallow embedding of `src/store_status_web.py` and
`src/scrape_cm_soup_stores.py` from the GCC-Checker repository, together
with theorems settling the specification claims about the
resolve / query / retry / aggregation pipeline.

Modelling conventions:
* Parsed JSON values are the inductive `Json`; Python dicts obtained from
  `json.loads` are association lists with unique keys.
* Python exceptions become the inductive `Err`; `str(exc)` becomes
  `errString`, mirroring the exact f-string message formats of the source.
* The network is an oracle: each outbound GraphQL POST is answered by a
  `Transport` value supplied per (store index, attempt index), so the
  zero-argument closures retried by `with_retry` become functions of the
  attempt number.
* `time.sleep` only delays; it is not observable in the embedding and is
  dropped.  Invocation counts, which the claims do talk about, are
  returned explicitly alongside each result.
-/

set_option autoImplicit false

namespace GCC

/-- Parsed JSON values (`json.loads` results).  The source never meets
non-integral numbers, so numbers are modelled as `Int`. -/
inductive Json where
  | null
  | bool (b : Bool)
  | num (n : Int)
  | str (s : String)
  | arr (xs : List Json)
  | obj (kvs : List (String × Json))
  deriving Repr, Inhabited

/-- Python truthiness (`bool(x)` / `if not x`) of a parsed JSON value:
`None`, `False`, `0`, `""`, `[]` and `{ }` are falsy. -/
def pyTruthy : Json → Bool
  | .null => false
  | .bool b => b
  | .num n => n != 0
  | .str s => s != ""
  | .arr xs => !xs.isEmpty
  | .obj kvs => !kvs.isEmpty

/-- Python `a or b` on JSON values. -/
def pyOr (a b : Json) : Json :=
  if pyTruthy a then a else b

/-- Dict lookup (`d.get(k)` / `d[k]` on a dict with unique keys). -/
def dictLookup (kvs : List (String × Json)) (k : String) : Option Json :=
  match kvs with
  | [] => none
  | (k', v) :: rest => if k' = k then some v else dictLookup rest k

/-- `data.get(k)` where `data` is any JSON value: succeeds only on dicts
(on anything else Python raises `AttributeError`). -/
def Json.getField : Json → String → Except String (Option Json)
  | .obj kvs, k => .ok (dictLookup kvs k)
  | .null, _ => .error "NoneType"
  | .bool _, _ => .error "bool"
  | .num _, _ => .error "int"
  | .str _, _ => .error "str"
  | .arr _, _ => .error "list"

/-- Total variant of `.get(k)` used in specification statements:
missing key (or non-dict) yields `None`. -/
def Json.getD (j : Json) (k : String) : Json :=
  match j with
  | .obj kvs => (dictLookup kvs k).getD .null
  | _ => .null

mutual

/-- Python `repr` of a parsed JSON value (string escaping inside `repr`
is not modelled; the strings that occur in this code need none). -/
def pyRepr : Json → String
  | .null => "None"
  | .bool true => "True"
  | .bool false => "False"
  | .num n => toString n
  | .str s => "'" ++ s ++ "'"
  | .arr xs => "[" ++ pyReprItems xs ++ "]"
  | .obj kvs => "\x7b" ++ pyReprFields kvs ++ "\x7d"

/-- `repr` of list items, comma separated. -/
def pyReprItems : List Json → String
  | [] => ""
  | [x] => pyRepr x
  | x :: y :: xs => pyRepr x ++ ", " ++ pyReprItems (y :: xs)

/-- `repr` of dict entries, comma separated. -/
def pyReprFields : List (String × Json) → String
  | [] => ""
  | [(k, v)] => "'" ++ k ++ "': " ++ pyRepr v
  | (k, v) :: e :: xs => "'" ++ k ++ "': " ++ pyRepr v ++ ", " ++ pyReprFields (e :: xs)

end

/-- Python `str` of a parsed JSON value (`str` differs from `repr` only
on strings). -/
def pyStr : Json → String
  | .str s => s
  | j => pyRepr j

/-- The exceptions raised by the source, one constructor per raise site.
Spec names: `resolutionEmptyPath`/`resolutionBadSegment`/`resolutionHtml`
are the `ResolutionError`s, `transportHttp`/`transportUrl` the
`TransportError`s, `upstream`/`missingData` the `UpstreamError`s,
`noProduct` the `NoProductDataError`, `retryExhausted` the
`RetryExhaustedError`; `attrError` models Python's `AttributeError` when
`.get` is called on a non-dict. -/
inductive Err where
  | resolutionEmptyPath (url : String)
  | resolutionBadSegment (url : String)
  | resolutionHtml
  | transportHttp (code : Nat) (raw : String)
  | transportUrl (msg : String)
  | upstream (errs : Json)
  | missingData (body : List (String × Json))
  | noProduct (productId : Nat) (storeId : Int)
  | attrError (typeName : String)
  | retryExhausted (attempts : Nat) (last : Option Err)
  deriving Repr, Inhabited

/-- `str(exc)`: the exact message each raise site formats. -/
def errString : Err → String
  | .resolutionEmptyPath url => "Invalid PRODUCT_PAGE_URL path: " ++ url
  | .resolutionBadSegment url =>
      "Could not extract numeric product id from PRODUCT_PAGE_URL: " ++ url
  | .resolutionHtml => "Could not find product ID in HTML."
  | .transportHttp code raw => "GraphQL HTTPError " ++ toString code ++ ": " ++ raw
  | .transportUrl msg => "GraphQL URLError: " ++ msg
  | .upstream errs => "GraphQL response errors: " ++ pyStr errs
  | .missingData body => "GraphQL missing data payload: " ++ pyStr (.obj body)
  | .noProduct pid sid =>
      "No product payload for product=" ++ toString pid ++ ", store=" ++ toString sid
  | .attrError t => "'" ++ t ++ "' object has no attribute 'get'"
  | .retryExhausted attempts last =>
      "Operation failed after " ++ toString attempts ++ " attempts: " ++
        (match last with
         | none => "None"
         | some e => errString e)

/-- `int(s)` on a run of decimal digits. -/
def natOfDigits (ds : List Char) : Nat :=
  ds.foldl (fun n c => 10 * n + (c.toNat - 48)) 0

/-! ## URL parsing (`urllib.parse.urlparse(...).path`)

A model of CPython's `urlsplit` restricted to the `path` component:
strip C0-control/space characters from both ends, remove every tab, CR
and LF, strip a valid scheme prefix, strip a `//netloc` prefix up to the
next `/`, `?` or `#`, then cut the fragment (first `#`) and the query
(first `?`). -/

/-- WHATWG C0-control-or-space characters, stripped from both ends. -/
def isC0OrSpace (c : Char) : Bool := c.toNat ≤ 32

/-- Strip `isC0OrSpace` characters from both ends. -/
def stripC0 (l : List Char) : List Char :=
  ((l.dropWhile isC0OrSpace).reverse.dropWhile isC0OrSpace).reverse

/-- Remove the unsafe URL bytes tab, CR and LF anywhere in the URL. -/
def removeUnsafe (l : List Char) : List Char :=
  l.filter (fun c => !(c = '\t' || c = '\r' || c = '\n'))

/-- Characters allowed in a URL scheme: ASCII letters, digits, `+`, `-`, `.`. -/
def isSchemeChar (c : Char) : Bool :=
  c.isAlphanum || c = '+' || c = '-' || c = '.'

/-- Strip `scheme:` when the text before the first colon is a valid
scheme (non-empty, leading ASCII letter, scheme characters only). -/
def dropScheme (l : List Char) : List Char :=
  match l.findIdx? (· = ':') with
  | some i =>
      if 0 < i && (l.headD ' ').isAlpha && (l.take i).all isSchemeChar then
        l.drop (i + 1)
      else l
  | none => l

/-- Strip a leading `//netloc`, keeping the `/`, `?` or `#` delimiter. -/
def dropNetloc (l : List Char) : List Char :=
  match l with
  | '/' :: '/' :: rest => rest.dropWhile (fun c => !(c = '/' || c = '?' || c = '#'))
  | _ => l

/-- Everything before the first occurrence of `c`. -/
def takeUntil (c : Char) (l : List Char) : List Char :=
  l.takeWhile (· ≠ c)

/-- The `path` component of `urllib.parse.urlparse`. -/
def urlparsePath (l : List Char) : List Char :=
  takeUntil '?' (takeUntil '#' (dropNetloc (dropScheme (removeUnsafe (stripC0 l)))))

/-- Python `s.split("/")` (keeps empty pieces; `"".split("/") == [""]`). -/
def splitSlash : List Char → List (List Char)
  | [] => [[]]
  | '/' :: rest => [] :: splitSlash rest
  | c :: rest =>
      match splitSlash rest with
      | seg :: segs => (c :: seg) :: segs
      | [] => [[c]]

/-- The non-empty segments of the URL's path
(`[p for p in parsed.path.split("/") if p]`). -/
def urlPathParts (url : String) : List (List Char) :=
  (splitSlash (urlparsePath url.toList)).filter (fun seg => !seg.isEmpty)

/-- `product_id_from_product_url` (src/store_status_web.py:26-36): split
the URL's path into non-empty segments; the last segment must be all
decimal digits and is returned as an integer; otherwise `ValueError`. -/
def product_id_from_product_url (url : String) : Except Err Nat :=
  match (urlPathParts url).getLast? with
  | none => .error (.resolutionEmptyPath url)
  | some seg =>
      if seg.all Char.isDigit then .ok (natOfDigits seg)
      else .error (.resolutionBadSegment url)

/-! ## GraphQL client (`gql`, src/store_status_web.py:39-71) -/

/-- The transport-level outcome of one outbound POST, supplied by the
network oracle: a parsed JSON object body on 2xx (`json.loads` of the
response), an `HTTPError` with status code and raw body, or a
`URLError`. -/
inductive Transport where
  | okBody (body : List (String × Json))
  | httpError (code : Nat) (raw : String)
  | urlError (msg : String)

/-- The envelope handling of `gql` after a successful transport:
a body with an `errors` field fails with the `errors` content, a body
without a `data` field fails naming the body, otherwise the `data`
field is returned. -/
def gqlDecode (body : List (String × Json)) : Except Err Json :=
  match dictLookup body "errors" with
  | some errs => .error (.upstream errs)
  | none =>
      match dictLookup body "data" with
      | some d => .ok d
      | none => .error (.missingData body)

/-- The fixed GraphQL endpoint. -/
def GRAPHQL_URL : String := "https://services.centralmarket.com/cm-graphql-service/"

/-- The per-store product query text sent by `check_product_for_store`. -/
def productByStoreQuery : String :=
  "query ProductByStore($productId: Int!, $storeId: Int!) \x7b product(productId: $productId, storeId: $storeId) \x7b title in_assortment available \x7d \x7d"

/-- `gql` (src/store_status_web.py:39-71): one POST, answered by `t`.
The query and variables are serialized into the request and do not
affect the decoded result. -/
def gql (_query : String) (_variables : List (String × Json)) (t : Transport) :
    Except Err Json :=
  match t with
  | .okBody body => gqlDecode body
  | .httpError code raw => .error (.transportHttp code raw)
  | .urlError msg => .error (.transportUrl msg)

/-- `check_product_for_store` (src/store_status_web.py:86-100): run the
product query, take `data.get("product")`, and raise
`No product payload ...` when the result is falsy (`if not product`). -/
def check_product_for_store (product_id : Nat) (store_id : Int) (t : Transport) :
    Except Err Json := do
  let data ← gql productByStoreQuery
    [("productId", .num product_id), ("storeId", .num store_id)] t
  let productOpt ←
    match data.getField "product" with
    | .ok o => Except.ok o
    | .error typeName => Except.error (Err.attrError typeName)
  let product := productOpt.getD .null
  if pyTruthy product then pure product
  else .error (.noProduct product_id store_id)

/-! ## Retry wrapper (`with_retry`, src/store_status_web.py:74-83)

The zero-argument closure retried by the source may answer differently
on each call (it reaches the network), so the embedded operation is a
function of the invocation index.  Alongside the result the number of
invocations performed is returned; the backoff sleeps only delay and
are dropped. -/

/-- The retry loop: `remaining` iterations left, `i` invocations done,
`last` the last exception.  After the final failure, raise
`RetryExhaustedError` wrapping `last` and stating the attempt count. -/
def retryGo {α : Type} (fn : Nat → Except Err α) (attempts : Nat) :
    Nat → Option Err → Nat → Except Err α × Nat
  | i, last, 0 => (.error (.retryExhausted attempts last), i)
  | i, _, Nat.succ rem =>
      match fn i with
      | .ok v => (.ok v, i + 1)
      | .error e => retryGo fn attempts (i + 1) (some e) rem

/-- `with_retry` (src/store_status_web.py:74-83) with its invocation
count. -/
def with_retry {α : Type} (fn : Nat → Except Err α) (attempts : Nat := 3) :
    Except Err α × Nat :=
  retryGo fn attempts 0 none attempts

/-! ## Store availability aggregator (`collect_status`, src/store_status_web.py:103-127) -/

/-- Per-store availability record appended to `stores`. -/
structure StoreEntry where
  label : String
  store_id : Int
  located : Bool
  in_stock : Bool
  deriving Repr

/-- The status snapshot returned by `collect_status`.  `title` is kept
as a JSON value: the source threads `product.get("title")` through
Python `or` without type checks. -/
structure Snapshot where
  generated_at_utc : String
  product_id : Nat
  title : Json
  source : String
  product_page_url : String
  stores : List StoreEntry
  deriving Repr

/-- One loop body of `collect_status` after a successful lookup:
`title = title or product.get("title")` and the appended record
`{label, store_id, located = bool(product.get("in_assortment")),
in_stock = bool(product.get("available"))}`.  Fails (AttributeError)
when `product` is not a dict. -/
def entryOf (label : String) (sid : Int) (title : Json) (product : Json) :
    Except Err (Json × StoreEntry) := do
  let t ←
    match product.getField "title" with
    | .ok o => Except.ok o
    | .error typeName => Except.error (Err.attrError typeName)
  let ia ←
    match product.getField "in_assortment" with
    | .ok o => Except.ok o
    | .error typeName => Except.error (Err.attrError typeName)
  let av ←
    match product.getField "available" with
    | .ok o => Except.ok o
    | .error typeName => Except.error (Err.attrError typeName)
  pure (pyOr title (t.getD .null),
    ⟨label, sid, pyTruthy (ia.getD .null), pyTruthy (av.getD .null)⟩)

/-- The per-store lookup through the retry wrapper:
`with_retry(lambda: check_product_for_store(product_id, store_id))`,
where attempt `a` of store index `idx` is answered by `oracle idx a`. -/
def storeAttempt (pid : Nat) (oracle : Nat → Nat → Transport) (idx : Nat) (sid : Int) :
    Except Err Json × Nat :=
  with_retry (fun a => check_product_for_store pid sid (oracle idx a)) 3

/-- The `for label, store_id in TARGET_STORES` loop of `collect_status`.
Returns the final title accumulator and the recorded entries, paired
with the list of invocation counts, one per store reached (an
exhausted retry raises out of the loop, so later stores never appear). -/
def collectLoop (pid : Nat) (oracle : Nat → Nat → Transport) :
    Nat → List (String × Int) → Json → List StoreEntry →
    Except Err (Json × List StoreEntry) × List Nat
  | _, [], title, acc => (.ok (title, acc.reverse), [])
  | idx, (label, sid) :: rest, title, acc =>
      let rc := storeAttempt pid oracle idx sid
      match rc.1 with
      | .error e => (.error e, [rc.2])
      | .ok product =>
          match entryOf label sid title product with
          | .error e => (.error e, [rc.2])
          | .ok (title1, entry) =>
              let next := collectLoop pid oracle (idx + 1) rest title1 (entry :: acc)
              (next.1, rc.2 :: next.2)

/-- The fixed fallback snapshot title. -/
def FALLBACK_TITLE : String := "Central Market Green Chile Chicken Soup, 16 oz"

/-- The process configuration read by `collect_status`:
`PRODUCT_PAGE_URL` (environment-overridable) and the fixed
`TARGET_STORES` list. -/
structure Env where
  productPageUrl : String
  targetStores : List (String × Int)

/-- The compiled-in store list. -/
def TARGET_STORES : List (String × Int) := [("Plano", 546), ("Lovers Lane", 552)]

/-- The default `PRODUCT_PAGE_URL`. -/
def DEFAULT_PRODUCT_PAGE_URL : String :=
  "https://www.centralmarket.com/product/central-market-green-chile-chicken-soup-16-oz/608890"

/-- The configuration of an unmodified process. -/
def defaultEnv : Env := ⟨DEFAULT_PRODUCT_PAGE_URL, TARGET_STORES⟩

/-- `collect_status` (src/store_status_web.py:103-127): resolve the
product id once, then run the per-store loop; on success assemble the
snapshot with `title or FALLBACK_TITLE`.  `now` stands for
`datetime.now(timezone.utc).isoformat()`.  The second component lists
the invocation counts of the stores reached. -/
def collect_status (env : Env) (oracle : Nat → Nat → Transport) (now : String) :
    Except Err Snapshot × List Nat :=
  match product_id_from_product_url env.productPageUrl with
  | .error e => (.error e, [])
  | .ok pid =>
      match collectLoop pid oracle 0 env.targetStores .null [] with
      | (.error e, cs) => (.error e, cs)
      | (.ok (title, entries), cs) =>
          (.ok ⟨now, pid, pyOr title (.str FALLBACK_TITLE), GRAPHQL_URL,
                env.productPageUrl, entries⟩, cs)

/-! ## Status service (`Handler.do_GET`, src/store_status_web.py:260-296) -/

/-- The body of an HTTP response: the static index page (its markup is
out of scope, see spec §1), a serialized JSON value, or empty. -/
inductive Body where
  | staticPage
  | json (j : Json)
  | empty
  deriving Repr

/-- An HTTP response as sent by the handler. -/
structure HttpResponse where
  status : Nat
  body : Body
  deriving Repr

/-- The serialized snapshot (`json.dumps(payload)`). -/
def snapshotJson (s : Snapshot) : Json :=
  .obj [("generated_at_utc", .str s.generated_at_utc),
        ("product_id", .num s.product_id),
        ("title", s.title),
        ("source", .str s.source),
        ("product_page_url", .str s.product_page_url),
        ("stores", .arr (s.stores.map (fun e =>
          .obj [("label", .str e.label),
                ("store_id", .num e.store_id),
                ("located", .bool e.located),
                ("in_stock", .bool e.in_stock)])))]

/-- The 500 error payload of the status endpoint.  `tb` stands for
`traceback.format_exc()`, whose text is environment-dependent. -/
def errorBody (e : Err) (env : Env) (tb : String) : Json :=
  .obj [("error", .str (errString e)),
        ("traceback", .str tb),
        ("product_page_url", .str env.productPageUrl),
        ("source", .str GRAPHQL_URL)]

/-- `Handler.do_GET` (src/store_status_web.py:260-296): route on
`urlparse(self.path).path`; `/` serves the static page, `/api/status`
runs `collect_status` and returns 200 with the snapshot or 500 with the
error payload, anything else is 404.  Alongside the response, the
per-store invocation counts of the collection cycle are returned. -/
def do_GET (env : Env) (oracle : Nat → Nat → Transport) (now tb : String)
    (reqPath : String) : HttpResponse × List Nat :=
  let p := urlparsePath reqPath.toList
  if p = "/".toList then (⟨200, .staticPage⟩, [])
  else if p = "/api/status".toList then
    match collect_status env oracle now with
    | (.ok snap, cs) => (⟨200, .json (snapshotJson snap)⟩, cs)
    | (.error e, cs) => (⟨500, .json (errorBody e env tb)⟩, cs)
  else (⟨404, .empty⟩, [])

/-! ## Offline HTML resolver (`extract_product_id`, src/scrape_cm_soup_stores.py:13-26)

The two `re.search` patterns are embedded as explicit matchers over
`List Char` with Python's leftmost-search and greedy-backtracking
semantics.  Character classes here are pairwise handled as follows:
a greedy one-or-more run whose following literal cannot occur inside
the run (`\s+` before `p`/`c`, `[^/]+` before `/`, `\d+` before `"`)
never backtracks, so it is matched possessively; the run `[^"]+`,
whose continuation `/...` can occur inside it, is matched with full
longest-first backtracking. -/

/-- Python's `\s` on ASCII text. -/
def isSpaceRe (c : Char) : Bool :=
  c = ' ' || c = '\t' || c = '\n' || c = '\r' || c = '\x0b' || c = '\x0c'

/-- Match a literal case-insensitively, returning the rest of the input. -/
def matchLitCI : List Char → List Char → Option (List Char)
  | [], s => some s
  | _ :: _, [] => none
  | p :: ps, c :: cs => if p.toLower = c.toLower then matchLitCI ps cs else none

/-- `\s+` followed by a non-space literal: maximal run of at least one
whitespace character. -/
def matchSpacePlus : List Char → Option (List Char)
  | [] => none
  | c :: rest => if isSpaceRe c then some (rest.dropWhile isSpaceRe) else none

/-- `(\d+)"`: a maximal run of at least one digit followed by a double
quote; returns the captured digits. -/
def matchDigitsQuote (s : List Char) : Option (List Char) :=
  let ds := s.takeWhile Char.isDigit
  if ds.isEmpty then none
  else
    match s.drop ds.length with
    | '"' :: _ => some ds
    | _ => none

/-- `[^/]+/(\d+)"`: a maximal run of at least one non-slash character,
a slash, then `matchDigitsQuote`. -/
def matchSegDigitsQuote (s : List Char) : Option (List Char) :=
  let run := s.takeWhile (· ≠ '/')
  if run.isEmpty then none
  else
    match s.drop run.length with
    | '/' :: rest => matchDigitsQuote rest
    | _ => none

/-- The suffixes of `run ++ rest` obtained by consuming 1, 2, ... chars
of `run`, in that order. -/
def suffixesAfter : List Char → List Char → List (List Char)
  | [], _ => []
  | _ :: cs, rest => (cs ++ rest) :: suffixesAfter cs rest

/-- `[^"]+/[^/]+/(\d+)"`: the greedy run `[^"]+` backtracks from
longest to shortest so that a `/` followed by `matchSegDigitsQuote`
matches the remainder. -/
def matchAfterScheme (s : List Char) : Option (List Char) :=
  let run := s.takeWhile (· ≠ '"')
  let rest := s.drop run.length
  (suffixesAfter run rest).reverse.findSome? fun t =>
    match t with
    | '/' :: u => matchSegDigitsQuote u
    | _ => none

/-- `://` then `matchAfterScheme`. -/
def matchColonSlashes (s : List Char) : Option (List Char) :=
  (matchLitCI "://".toList s).bind matchAfterScheme

/-- `s?://...`: greedily try consuming an `s` first; since `:` is not
`s`, dropping a present `s` can never help, and vice versa. -/
def matchSchemeEnd (s : List Char) : Option (List Char) :=
  (match s with
   | c :: rest => if c.toLower = 's' then matchColonSlashes rest else none
   | [] => none) <|> matchColonSlashes s

/-- The og:url pattern
`<meta\s+property="og:url"\s+content="https?://[^"]+/[^/]+/(\d+)"`
anchored at the current position; returns the captured digits. -/
def matchOgAt (s : List Char) : Option (List Char) := do
  let s ← matchLitCI "<meta".toList s
  let s ← matchSpacePlus s
  let s ← matchLitCI "property=\"og:url\"".toList s
  let s ← matchSpacePlus s
  let s ← matchLitCI "content=\"".toList s
  let s ← matchLitCI "http".toList s
  matchSchemeEnd s

/-- `(\d+)` with nothing after it: a maximal run of at least one digit. -/
def matchDigitsBare (s : List Char) : Option (List Char) :=
  let ds := s.takeWhile Char.isDigit
  if ds.isEmpty then none else some ds

/-- The fallback pattern `/central-market-[^/]+/(\d+)` anchored at the
current position. -/
def matchCmAt (s : List Char) : Option (List Char) := do
  let s ← matchLitCI "/central-market-".toList s
  let run := s.takeWhile (· ≠ '/')
  if run.isEmpty then none
  else
    match s.drop run.length with
    | '/' :: rest => matchDigitsBare rest
    | _ => none

/-- `re.search`: try the anchored matcher at each position, left to
right, and parse the first captured digit run. -/
def reSearch (m : List Char → Option (List Char)) : List Char → Option Nat
  | [] => none
  | s@(_ :: rest) =>
      match m s with
      | some ds => some (natOfDigits ds)
      | none => reSearch m rest

/-- The og:url search of `extract_product_id`. -/
def searchOg (html : String) : Option Nat :=
  reSearch matchOgAt html.toList

/-- The central-market fallback search of `extract_product_id`. -/
def searchCm (html : String) : Option Nat :=
  reSearch matchCmAt html.toList

/-- `extract_product_id` (src/scrape_cm_soup_stores.py:13-26): the
og:url pattern first, the central-market pattern second, otherwise
`ValueError("Could not find product ID in HTML.")`. -/
def extract_product_id (html : String) : Except Err Nat :=
  match searchOg html with
  | some n => .ok n
  | none =>
      match searchCm html with
      | some n => .ok n
      | none => .error .resolutionHtml

/-! ## Specification-side definitions

Restatements, in the spec's own words (§4.4), of the snapshot title and
per-store record rules, compared against `collect_status` in the
theorems for C7/C8. -/

/-- Left fold of Python `or`, the shape `title = title or ...` takes
across the store loop. -/
def pyOrFold (t : Json) (ls : List Json) : Json :=
  ls.foldl pyOr t

/-- Spec §4.4: "the title from the first store that supplies one is
used as the snapshot's overall title, with a fixed fallback string if
none of the stores returns a title". -/
def specSnapshotTitle (prods : List Json) : Json :=
  ((prods.map (fun p => p.getD "title")).find? pyTruthy).getD (.str FALLBACK_TITLE)

/-- Spec §4.4: "On success for a store, records
`{ label, store_id, located = in_assortment, in_stock = available }`"
(boolean coercion as in the source). -/
def specStoreEntries (stores : List (String × Int)) (prods : List Json) :
    List StoreEntry :=
  List.zipWith
    (fun ls p => ⟨ls.1, ls.2, pyTruthy (p.getD "in_assortment"),
                  pyTruthy (p.getD "available")⟩)
    stores prods

/-! ## Helper lemmas -/

theorem retryGo_zero {α : Type} (fn : Nat → Except Err α) (att i : Nat)
    (last : Option Err) :
    retryGo fn att i last 0 = (.error (.retryExhausted att last), i) := rfl

theorem retryGo_err {α : Type} (fn : Nat → Except Err α) (att i : Nat)
    (last : Option Err) (rem : Nat) (e : Err) (h : fn i = .error e) :
    retryGo fn att i last (rem + 1) = retryGo fn att (i + 1) (some e) rem := by
  simp [retryGo, h]

theorem retryGo_ok {α : Type} (fn : Nat → Except Err α) (att i : Nat)
    (last : Option Err) (rem : Nat) (v : α) (h : fn i = .ok v) :
    retryGo fn att i last (rem + 1) = (.ok v, i + 1) := by
  simp [retryGo, h]

/-- An operation that fails on its first three invocations exhausts
`with_retry` at 3 attempts: three invocations, then
`RetryExhaustedError` wrapping the third error. -/
theorem with_retry_three_fail {α : Type} (fn : Nat → Except Err α)
    (e0 e1 e2 : Err) (h0 : fn 0 = .error e0) (h1 : fn 1 = .error e1)
    (h2 : fn 2 = .error e2) :
    with_retry fn 3 = (.error (.retryExhausted 3 (some e2)), 3) := by
  show retryGo fn 3 0 none 3 = _
  rw [show (3 : Nat) = 2 + 1 from rfl, retryGo_err fn 3 0 none 2 e0 h0,
    show (2 : Nat) = 1 + 1 from rfl, retryGo_err fn 3 1 (some e0) 1 e1 h1,
    retryGo_err fn 3 2 (some e1) 0 e2 h2, retryGo_zero]

/-- An operation that fails twice then succeeds returns the success
value after exactly three invocations. -/
theorem with_retry_third_ok {α : Type} (fn : Nat → Except Err α)
    (e0 e1 : Err) (v : α) (h0 : fn 0 = .error e0) (h1 : fn 1 = .error e1)
    (h2 : fn 2 = .ok v) :
    with_retry fn 3 = (.ok v, 3) := by
  show retryGo fn 3 0 none 3 = _
  rw [show (3 : Nat) = 2 + 1 from rfl, retryGo_err fn 3 0 none 2 e0 h0,
    show (2 : Nat) = 1 + 1 from rfl, retryGo_err fn 3 1 (some e0) 1 e1 h1,
    show (1 : Nat) = 0 + 1 from rfl, retryGo_ok fn 3 2 (some e1) 0 v h2]

theorem except_bind_ok {α β : Type} (a : α) (f : α → Except Err β) :
    (Except.ok a >>= f) = f a := rfl

theorem except_pure {α : Type} (a : α) :
    (pure a : Except Err α) = Except.ok a := rfl

theorem except_bind_error {α β : Type} (e : Err) (f : α → Except Err β) :
    ((Except.error e : Except Err α) >>= f) = Except.error e := rfl

theorem entryOf_obj (label : String) (sid : Int) (title : Json)
    (kvs : List (String × Json)) :
    entryOf label sid title (.obj kvs) =
      .ok (pyOr title (Json.getD (.obj kvs) "title"),
        ⟨label, sid, pyTruthy (Json.getD (.obj kvs) "in_assortment"),
          pyTruthy (Json.getD (.obj kvs) "available")⟩) := rfl

/-- Inversion: a successful `entryOf` determines the new title
accumulator and the recorded entry from `product`. -/
theorem entryOf_ok_inv (label : String) (sid : Int) (title : Json)
    (product : Json) (t1 : Json) (entry : StoreEntry)
    (h : entryOf label sid title product = .ok (t1, entry)) :
    t1 = pyOr title (product.getD "title") ∧
      entry = ⟨label, sid, pyTruthy (product.getD "in_assortment"),
        pyTruthy (product.getD "available")⟩ := by
  cases product with
  | obj kvs =>
      rw [entryOf_obj] at h
      injection h with h
      injection h with h1 h2
      exact ⟨h1.symm, h2.symm⟩
  | null =>
      rw [show entryOf label sid title .null =
        .error (.attrError "NoneType") from rfl] at h
      exact Except.noConfusion h
  | bool b =>
      rw [show entryOf label sid title (.bool b) =
        .error (.attrError "bool") from rfl] at h
      exact Except.noConfusion h
  | num n =>
      rw [show entryOf label sid title (.num n) =
        .error (.attrError "int") from rfl] at h
      exact Except.noConfusion h
  | str s =>
      rw [show entryOf label sid title (.str s) =
        .error (.attrError "str") from rfl] at h
      exact Except.noConfusion h
  | arr xs =>
      rw [show entryOf label sid title (.arr xs) =
        .error (.attrError "list") from rfl] at h
      exact Except.noConfusion h

/-- A truthy accumulator survives the whole `or` fold. -/
theorem pyOrFold_truthy (ls : List Json) (t : Json) (h : pyTruthy t = true) :
    pyOrFold t ls = t := by
  induction ls with
  | nil => rfl
  | cons x xs ih => simpa [pyOrFold, List.foldl_cons, pyOr, h] using ih

/-- Starting from a falsy accumulator, `or`-folding the list and then
`or`-ing a default yields the first truthy element, else the default. -/
theorem pyOrFold_falsy (ls : List Json) (t fb : Json) (h : pyTruthy t = false) :
    pyOr (pyOrFold t ls) fb = (ls.find? pyTruthy).getD fb := by
  induction ls generalizing t with
  | nil => simp [pyOrFold, pyOr, h]
  | cons x xs ih =>
      have hx : pyOr t x = x := by simp [pyOr, h]
      by_cases hxt : pyTruthy x = true
      · simp only [pyOrFold, List.foldl_cons, hx, List.find?_cons, hxt]
        rw [show List.foldl pyOr x xs = pyOrFold x xs from rfl,
          pyOrFold_truthy xs x hxt]
        simp [pyOr, hxt]
      · have hxf : pyTruthy x = false := by simpa using hxt
        simp only [pyOrFold, List.foldl_cons, hx, List.find?_cons, hxf]
        exact ih x hxf

/-- On the success path, the entries recorded by the store loop carry
exactly the configured labels and store ids, in order. -/
theorem collectLoop_ok_labels (pid : Nat) (oracle : Nat → Nat → Transport) :
    ∀ (stores : List (String × Int)) (idx : Nat) (title : Json)
      (acc : List StoreEntry) (t' : Json) (es : List StoreEntry) (cs : List Nat),
      collectLoop pid oracle idx stores title acc = (.ok (t', es), cs) →
      es.map (fun e => (e.label, e.store_id)) =
        acc.reverse.map (fun e => (e.label, e.store_id)) ++ stores := by
  intro stores
  induction stores with
  | nil =>
      intro idx title acc t' es cs h
      simp only [collectLoop] at h
      injection h with h1 _
      injection h1 with h1
      injection h1 with _ h2
      simp [← h2]
  | cons hd rest ih =>
      intro idx title acc t' es cs h
      obtain ⟨label, sid⟩ := hd
      simp only [collectLoop] at h
      cases hrc : (storeAttempt pid oracle idx sid).1 with
      | error e => rw [hrc] at h; exact absurd h (by simp)
      | ok product =>
          rw [hrc] at h
          dsimp only [] at h
          cases hent : entryOf label sid title product with
          | error e => rw [hent] at h; exact absurd h (by simp)
          | ok te =>
              obtain ⟨t1, entry⟩ := te
              rw [hent] at h
              dsimp only [] at h
              injection h with h1 _
              have := ih (idx + 1) t1 (entry :: acc) t' es
                (collectLoop pid oracle (idx + 1) rest t1 (entry :: acc)).2
                (by rw [← h1])
              rw [this]
              obtain ⟨-, hentry⟩ := entryOf_ok_inv label sid title product t1 entry hent
              simp [hentry]

/-- On the success path, when the per-store retry results are the
products `prods`, the store loop computes the `or`-fold of their titles
and records exactly the spec's per-store entries. -/
theorem collectLoop_ok_spec (pid : Nat) (oracle : Nat → Nat → Transport) :
    ∀ (stores : List (String × Int)) (prods : List Json) (idx : Nat)
      (title : Json) (acc : List StoreEntry) (t' : Json) (es : List StoreEntry)
      (cs : List Nat),
      prods.length = stores.length →
      (∀ (i : Nat) (ls : String × Int) (p : Json), stores.get? i = some ls →
        prods.get? i = some p → (storeAttempt pid oracle (idx + i) ls.2).1 = .ok p) →
      collectLoop pid oracle idx stores title acc = (.ok (t', es), cs) →
      t' = pyOrFold title (prods.map (fun p => p.getD "title")) ∧
        es = acc.reverse ++ specStoreEntries stores prods := by
  intro stores
  induction stores with
  | nil =>
      intro prods idx title acc t' es cs hlen _ h
      cases prods with
      | cons p ps => simp at hlen
      | nil =>
          simp only [collectLoop] at h
          injection h with h1 _
          injection h1 with h1
          injection h1 with h2 h3
          simp [← h2, ← h3, pyOrFold, specStoreEntries]
  | cons hd rest ih =>
      intro prods idx title acc t' es cs hlen hst h
      obtain ⟨label, sid⟩ := hd
      cases prods with
      | nil => simp at hlen
      | cons p0 prest =>
          have h0 : (storeAttempt pid oracle idx sid).1 = .ok p0 := by
            have := hst 0 (label, sid) p0 rfl rfl
            simpa using this
          simp only [collectLoop] at h
          rw [h0] at h
          dsimp only [] at h
          cases hent : entryOf label sid title p0 with
          | error e => rw [hent] at h; exact absurd h (by simp)
          | ok te =>
              obtain ⟨t1, entry⟩ := te
              rw [hent] at h
              dsimp only [] at h
              injection h with h1 _
              obtain ⟨ht1, hentry⟩ := entryOf_ok_inv label sid title p0 t1 entry hent
              have hst' : ∀ (i : Nat) (ls : String × Int) (p : Json),
                  rest.get? i = some ls → prest.get? i = some p →
                  (storeAttempt pid oracle (idx + 1 + i) ls.2).1 = .ok p := by
                intro i ls p hl hp
                have := hst (i + 1) ls p (by simpa using hl) (by simpa using hp)
                rwa [show idx + (i + 1) = idx + 1 + i by omega] at this
              obtain ⟨hta, hesa⟩ := ih prest (idx + 1) t1 (entry :: acc) t' es
                (collectLoop pid oracle (idx + 1) rest t1 (entry :: acc)).2
                (by simpa using hlen) hst' (by rw [← h1])
              constructor
              · rw [hta, ht1]
                simp [pyOrFold]
              · rw [hesa, hentry]
                simp [specStoreEntries]

/-! ## Claim theorems -/

/-- C2: for every zero-argument operation and `attempts = 3`, an
operation failing on all three invocations is invoked exactly 3 times
and `with_retry` raises `RetryExhaustedError` wrapping the third
invocation's error; an operation failing twice and succeeding on the
third invocation yields its success value after exactly 3 invocations. -/
theorem c2_retry_wrapper {α : Type} (fn : Nat → Except Err α) :
    (∀ (e0 e1 e2 : Err), fn 0 = .error e0 → fn 1 = .error e1 → fn 2 = .error e2 →
      with_retry fn 3 = (.error (.retryExhausted 3 (some e2)), 3)) ∧
    (∀ (e0 e1 : Err) (v : α), fn 0 = .error e0 → fn 1 = .error e1 → fn 2 = .ok v →
      with_retry fn 3 = (.ok v, 3)) :=
  ⟨fun e0 e1 e2 h0 h1 h2 => with_retry_three_fail fn e0 e1 e2 h0 h1 h2,
   fun e0 e1 v h0 h1 h2 => with_retry_third_ok fn e0 e1 v h0 h1 h2⟩

/-- A concrete operation that fails on every invocation, with distinct
errors per attempt. -/
def alwaysFailOp : Nat → Except Err Nat :=
  fun a => .error (.transportUrl (toString a))

/-- A concrete operation that fails twice, then succeeds with 42. -/
def thirdTimeOp : Nat → Except Err Nat :=
  fun a => if a < 2 then .error (.transportUrl (toString a)) else .ok 42

theorem c2_retry_wrapper_witness :
    with_retry alwaysFailOp 3 =
      (.error (.retryExhausted 3 (some (.transportUrl "2"))), 3) ∧
    with_retry thirdTimeOp 3 = (.ok 42, 3) :=
  ⟨(c2_retry_wrapper alwaysFailOp).1 _ _ _ rfl rfl rfl,
   (c2_retry_wrapper thirdTimeOp).2 _ _ 42 rfl rfl rfl⟩

/-- C4: on successful transport, a body with an `errors` field fails
with `UpstreamError` carrying that field's content; a body without a
`data` field fails with `UpstreamError` as well; otherwise exactly the
`data` field's value is returned. -/
theorem c4_gql_envelope (q : String) (vars body : List (String × Json)) :
    (∀ e, dictLookup body "errors" = some e →
      gql q vars (.okBody body) = .error (.upstream e)) ∧
    (dictLookup body "errors" = none → dictLookup body "data" = none →
      gql q vars (.okBody body) = .error (.missingData body)) ∧
    (∀ d, dictLookup body "errors" = none → dictLookup body "data" = some d →
      gql q vars (.okBody body) = .ok d) :=
  ⟨fun e he => by simp [gql, gqlDecode, he],
   fun he hd => by simp [gql, gqlDecode, he, hd],
   fun d he hd => by simp [gql, gqlDecode, he, hd]⟩

theorem c4_gql_envelope_witness :
    gql productByStoreQuery [] (.okBody [("errors", .arr [.str "down"])]) =
      .error (.upstream (.arr [.str "down"])) ∧
    gql productByStoreQuery [] (.okBody [("ok", .bool true)]) =
      .error (.missingData [("ok", .bool true)]) ∧
    gql productByStoreQuery [] (.okBody [("data", .num 7)]) = .ok (.num 7) :=
  ⟨(c4_gql_envelope productByStoreQuery [] _).1 _ rfl,
   (c4_gql_envelope productByStoreQuery [] _).2.1 rfl rfl,
   (c4_gql_envelope productByStoreQuery [] _).2.2 _ rfl rfl⟩

/-- C5: a URL whose path has a non-empty last segment of pure decimal
digits resolves to that segment as an integer; a URL with no non-empty
path segment, or a non-digit character in the last segment, fails with
a `ResolutionError` naming the URL. -/
theorem c5_identifier_resolver (url : String) :
    (∀ seg, (urlPathParts url).getLast? = some seg → seg.all Char.isDigit = true →
      product_id_from_product_url url = .ok (natOfDigits seg)) ∧
    ((urlPathParts url).getLast? = none →
      product_id_from_product_url url = .error (.resolutionEmptyPath url)) ∧
    (∀ seg, (urlPathParts url).getLast? = some seg → seg.all Char.isDigit = false →
      product_id_from_product_url url = .error (.resolutionBadSegment url)) :=
  ⟨fun seg hl hd => by simp [product_id_from_product_url, hl, hd],
   fun hl => by simp [product_id_from_product_url, hl],
   fun seg hl hd => by simp [product_id_from_product_url, hl, hd]⟩

theorem c5_identifier_resolver_witness :
    product_id_from_product_url DEFAULT_PRODUCT_PAGE_URL = .ok 608890 ∧
    product_id_from_product_url "https://www.centralmarket.com" =
      .error (.resolutionEmptyPath "https://www.centralmarket.com") ∧
    product_id_from_product_url "https://www.centralmarket.com/product/soup" =
      .error (.resolutionBadSegment "https://www.centralmarket.com/product/soup") :=
  ⟨(c5_identifier_resolver DEFAULT_PRODUCT_PAGE_URL).1 "608890".toList rfl rfl,
   (c5_identifier_resolver "https://www.centralmarket.com").2.1 rfl,
   (c5_identifier_resolver "https://www.centralmarket.com/product/soup").2.2
     "soup".toList rfl rfl⟩

/-- C6: when the og:url pattern matches, its captured digits are
returned regardless of any central-market pattern occurrence; the
central-market pattern is consulted only when og:url does not match;
when neither matches the resolver fails with a `ResolutionError`. -/
theorem c6_html_resolver (html : String) :
    (∀ n, searchOg html = some n → extract_product_id html = .ok n) ∧
    (searchOg html = none → ∀ n, searchCm html = some n →
      extract_product_id html = .ok n) ∧
    (searchOg html = none → searchCm html = none →
      extract_product_id html = .error .resolutionHtml) :=
  ⟨fun n h => by simp [extract_product_id, h],
   fun h n h2 => by simp [extract_product_id, h, h2],
   fun h h2 => by simp [extract_product_id, h, h2]⟩

/-- HTML holding both an og:url tag ending in `/111` and a
central-market path fragment ending in `/222`. -/
def ogCmHtml : String :=
  "<meta property=\"og:url\" content=\"https://www.centralmarket.com/product/x/111\"> blah /central-market-soup/222 end"

theorem c6_html_resolver_witness :
    searchOg ogCmHtml = some 111 ∧ searchCm ogCmHtml = some 222 ∧
    extract_product_id ogCmHtml = .ok 111 :=
  ⟨rfl, rfl, (c6_html_resolver ogCmHtml).1 111 rfl⟩

/-- C10: the recorded `located` and `in_stock` are the truthiness
coercions of the product payload's `in_assortment` and `available`
fields; an absent field records `false` instead of failing. -/
theorem c10_truthiness_coercion (label : String) (sid : Int) (title : Json)
    (kvs : List (String × Json)) :
    entryOf label sid title (.obj kvs) =
      .ok (pyOr title ((dictLookup kvs "title").getD .null),
        ⟨label, sid, pyTruthy ((dictLookup kvs "in_assortment").getD .null),
          pyTruthy ((dictLookup kvs "available").getD .null)⟩) ∧
    (dictLookup kvs "in_assortment" = none →
      ∃ t1 e, entryOf label sid title (.obj kvs) = .ok (t1, e) ∧
        e.located = false) ∧
    (dictLookup kvs "available" = none →
      ∃ t1 e, entryOf label sid title (.obj kvs) = .ok (t1, e) ∧
        e.in_stock = false) :=
  ⟨entryOf_obj label sid title kvs,
   fun h => ⟨_, _, entryOf_obj label sid title kvs, by simp [Json.getD, h, pyTruthy]⟩,
   fun h => ⟨_, _, entryOf_obj label sid title kvs, by simp [Json.getD, h, pyTruthy]⟩⟩

theorem c10_truthiness_coercion_witness :
    ∃ t1 e, entryOf "Plano" 546 .null (.obj [("title", .str "Soup")]) = .ok (t1, e) ∧
      e.located = false :=
  (c10_truthiness_coercion "Plano" 546 .null [("title", .str "Soup")]).2.1 rfl

/-- C7: a successful aggregation cycle records exactly one entry per
configured store, in configured order, carrying that store's label and
store id. -/
theorem c7_snapshot_order (env : Env) (oracle : Nat → Nat → Transport)
    (now : String) (snap : Snapshot) (cs : List Nat)
    (h : collect_status env oracle now = (.ok snap, cs)) :
    snap.stores.length = env.targetStores.length ∧
    snap.stores.map (fun e => (e.label, e.store_id)) = env.targetStores := by
  unfold collect_status at h
  cases hres : product_id_from_product_url env.productPageUrl with
  | error e => rw [hres] at h; exact absurd h (by simp)
  | ok pid =>
      rw [hres] at h
      dsimp only [] at h
      cases hloop : collectLoop pid oracle 0 env.targetStores .null [] with
      | mk r cs' =>
          cases r with
          | error e => rw [hloop] at h; exact absurd h (by simp)
          | ok te =>
              obtain ⟨t, es⟩ := te
              rw [hloop] at h
              dsimp only [] at h
              injection h with h1 _
              injection h1 with h1
              have hsnap : snap.stores = es := by rw [← h1]
              have hmap := collectLoop_ok_labels pid oracle env.targetStores 0 .null
                [] t es cs' hloop
              simp only [List.reverse_nil, List.map_nil, List.nil_append] at hmap
              refine ⟨?_, by rw [hsnap, hmap]⟩
              have := congrArg List.length hmap
              simpa [hsnap] using this

/-- A network oracle answering every call with the same in-assortment,
out-of-stock product. -/
def okOracle : Nat → Nat → Transport := fun _ _ =>
  .okBody [("data", .obj [("product",
    .obj [("title", .str "Soup"), ("in_assortment", .bool true),
          ("available", .bool false)])])]

theorem c7_snapshot_order_witness :
    ∃ snap cs, collect_status defaultEnv okOracle "T" = (.ok snap, cs) ∧
      snap.stores.length = defaultEnv.targetStores.length ∧
      snap.stores.map (fun e => (e.label, e.store_id)) = defaultEnv.targetStores := by
  exact ⟨_, _, rfl, c7_snapshot_order defaultEnv okOracle "T" _ _ rfl⟩

/-- C8: on a successful cycle whose per-store retry results are
`prods`, the snapshot's title is the first truthy per-store title with
the fixed fallback otherwise, and each recorded entry coerces that
store's `in_assortment` and `available` values. -/
theorem c8_snapshot_title_fields (env : Env) (oracle : Nat → Nat → Transport)
    (now : String) (snap : Snapshot) (cs : List Nat) (pid : Nat)
    (prods : List Json)
    (hpid : product_id_from_product_url env.productPageUrl = .ok pid)
    (hlen : prods.length = env.targetStores.length)
    (hst : ∀ (i : Nat) (ls : String × Int) (p : Json),
      env.targetStores.get? i = some ls → prods.get? i = some p →
      (storeAttempt pid oracle i ls.2).1 = .ok p)
    (h : collect_status env oracle now = (.ok snap, cs)) :
    snap.title = specSnapshotTitle prods ∧
    snap.stores = specStoreEntries env.targetStores prods := by
  unfold collect_status at h
  rw [hpid] at h
  dsimp only [] at h
  cases hloop : collectLoop pid oracle 0 env.targetStores .null [] with
  | mk r cs' =>
      cases r with
      | error e => rw [hloop] at h; exact absurd h (by simp)
      | ok te =>
          obtain ⟨t, es⟩ := te
          rw [hloop] at h
          dsimp only [] at h
          injection h with h1 _
          injection h1 with h1
          have hst0 : ∀ (i : Nat) (ls : String × Int) (p : Json),
              env.targetStores.get? i = some ls → prods.get? i = some p →
              (storeAttempt pid oracle (0 + i) ls.2).1 = .ok p := by
            intro i ls p hl hp
            simpa using hst i ls p hl hp
          obtain ⟨ht, hes⟩ := collectLoop_ok_spec pid oracle env.targetStores prods
            0 .null [] t es cs' hlen hst0 hloop
          constructor
          · have : snap.title = pyOr t (.str FALLBACK_TITLE) := by rw [← h1]
            rw [this, ht, pyOrFold_falsy _ Json.null _ rfl]
            rfl
          · have : snap.stores = es := by rw [← h1]
            rw [this, hes]
            simp

/-- A network oracle whose first store's product supplies no title and
whose second store's does. -/
def titleOracle : Nat → Nat → Transport := fun i _ =>
  if i = 0 then
    .okBody [("data", .obj [("product",
      .obj [("in_assortment", .bool true), ("available", .bool true)])])]
  else
    .okBody [("data", .obj [("product",
      .obj [("title", .str "Green Chile Soup"), ("in_assortment", .bool true),
            ("available", .bool false)])])]

/-- The per-store products `titleOracle` delivers. -/
def titleProds : List Json :=
  [.obj [("in_assortment", .bool true), ("available", .bool true)],
   .obj [("title", .str "Green Chile Soup"), ("in_assortment", .bool true),
         ("available", .bool false)]]

theorem c8_snapshot_title_fields_witness :
    ∃ snap cs, collect_status defaultEnv titleOracle "T" = (.ok snap, cs) ∧
      snap.title = specSnapshotTitle titleProds ∧
      snap.stores = specStoreEntries defaultEnv.targetStores titleProds := by
  refine ⟨_, _, rfl,
    c8_snapshot_title_fields defaultEnv titleOracle "T" _ _ 608890 titleProds
      rfl rfl ?_ rfl⟩
  intro i ls p hl hp
  match i with
  | 0 =>
      rw [show defaultEnv.targetStores.get? 0 = some ("Plano", 546) from rfl] at hl
      rw [show titleProds.get? 0 = some (.obj [("in_assortment", .bool true),
        ("available", .bool true)]) from rfl] at hp
      injection hl with hl
      injection hp with hp
      subst hl
      subst hp
      rfl
  | 1 =>
      rw [show defaultEnv.targetStores.get? 1 = some ("Lovers Lane", 552) from rfl] at hl
      rw [show titleProds.get? 1 = some (.obj [("title", .str "Green Chile Soup"),
        ("in_assortment", .bool true), ("available", .bool false)]) from rfl] at hp
      injection hl with hl
      injection hp with hp
      subst hl
      subst hp
      rfl
  | n + 2 => exact Option.noConfusion hl

/-- C9: when identifier resolution fails, the failure propagates to the
status endpoint's 500 error response with no retry attempt and no
GraphQL call: the attempt-count list is empty and the response is
independent of the network oracle. -/
theorem c9_resolution_not_retried (env : Env) (oracle : Nat → Nat → Transport)
    (now tb : String) (e : Err)
    (hres : product_id_from_product_url env.productPageUrl = .error e) :
    do_GET env oracle now tb "/api/status" =
      (⟨500, .json (errorBody e env tb)⟩, []) := by
  have hroute : do_GET env oracle now tb "/api/status" =
      (match collect_status env oracle now with
       | (.ok snap, cs) => (⟨200, .json (snapshotJson snap)⟩, cs)
       | (.error er, cs) => (⟨500, .json (errorBody er env tb)⟩, cs)) := rfl
  have hcollect : collect_status env oracle now = (.error e, []) := by
    unfold collect_status
    rw [hres]
  rw [hroute, hcollect]

/-- A configuration whose product page URL has a non-numeric last
segment, so resolution fails. -/
def badEnv : Env := ⟨"https://www.centralmarket.com/product/soup", TARGET_STORES⟩

theorem c9_resolution_not_retried_witness :
    do_GET badEnv (fun _ _ => .urlError "unreached") "T" "TB" "/api/status" =
      (⟨500, .json (errorBody (.resolutionBadSegment badEnv.productPageUrl)
        badEnv "TB")⟩, []) :=
  c9_resolution_not_retried badEnv (fun _ _ => .urlError "unreached") "T" "TB"
    (.resolutionBadSegment badEnv.productPageUrl) rfl

/-- C3 (amended): the store lookup fails with `NoProductDataError`
naming product and store id exactly when the body's `product` value
(`None` when absent) is falsy — absent, null, or any other falsy value
such as an empty object; and, being raised inside a retry attempt, a
persistently falsy product exhausts all 3 attempts of the retry
wrapper. -/
theorem c3_no_product_data (pid : Nat) (sid : Int) (body kvs : List (String × Json))
    (h1 : dictLookup body "errors" = none)
    (h2 : dictLookup body "data" = some (.obj kvs)) :
    (check_product_for_store pid sid (.okBody body) = .error (.noProduct pid sid) ↔
      pyTruthy ((dictLookup kvs "product").getD .null) = false) ∧
    (∀ (oracle : Nat → Nat → Transport) (idx : Nat),
      (∀ a, oracle idx a = .okBody body) →
      pyTruthy ((dictLookup kvs "product").getD .null) = false →
      storeAttempt pid oracle idx sid =
        (.error (.retryExhausted 3 (some (.noProduct pid sid))), 3)) := by
  have hch : check_product_for_store pid sid (.okBody body) =
      (if pyTruthy ((dictLookup kvs "product").getD .null) = true
       then .ok ((dictLookup kvs "product").getD .null)
       else .error (.noProduct pid sid)) := by
    simp [check_product_for_store, gql, gqlDecode, h1, h2, Json.getField,
      except_bind_ok, except_bind_error, except_pure]
  constructor
  · rw [hch]
    by_cases hp : pyTruthy ((dictLookup kvs "product").getD .null) = true
    · simp [hp]
    · simp [hp]
  · intro oracle idx ho hf
    have hfn : ∀ a, check_product_for_store pid sid (oracle idx a) =
        .error (.noProduct pid sid) := by
      intro a
      rw [ho a, hch, if_neg (by simp [hf])]
    exact with_retry_three_fail _ _ _ _ (hfn 0) (hfn 1) (hfn 2)

/-- A well-formed response whose `product` is present, non-null, but
falsy: an empty object.  The lookup raises `NoProductDataError` on it,
refuting "fails if and only if the `product` field is absent or null". -/
theorem c3_no_product_data_counterexample :
    check_product_for_store 608890 546
      (.okBody [("data", .obj [("product", .obj [])])]) =
      .error (.noProduct 608890 546) ∧
    dictLookup [("product", Json.obj [])] "product" = some (.obj []) ∧
    Json.obj [] ≠ Json.null :=
  ⟨rfl, rfl, fun h => Json.noConfusion h⟩

theorem c3_no_product_data_witness :
    check_product_for_store 608890 546
      (.okBody [("data", .obj [("product", .null)])]) =
      .error (.noProduct 608890 546) ∧
    storeAttempt 608890 (fun _ _ => .okBody [("data", .obj [("product", .null)])])
        0 546 =
      (.error (.retryExhausted 3 (some (.noProduct 608890 546))), 3) :=
  ⟨(c3_no_product_data 608890 546 [("data", .obj [("product", .null)])]
      [("product", .null)] rfl rfl).1.mpr rfl,
   (c3_no_product_data 608890 546 [("data", .obj [("product", .null)])]
      [("product", .null)] rfl rfl).2 _ 0 (fun _ => rfl) rfl⟩

/-- C1 (amended): with the default configuration, when every GraphQL
call answers with an `errors` field, the status endpoint returns 500
with an `error` field carrying the upstream error of the last attempt
wrapped in the retry-exhaustion message — after exactly 3 upstream
attempts for the first configured store and none for the remaining
stores, the exhausted retry aborting the cycle. -/
theorem c1_status_failure (oracle : Nat → Nat → Transport)
    (bodyF : Nat → Nat → List (String × Json)) (errsF : Nat → Nat → Json)
    (now tb : String)
    (h1 : ∀ i a, oracle i a = .okBody (bodyF i a))
    (h2 : ∀ i a, dictLookup (bodyF i a) "errors" = some (errsF i a)) :
    do_GET defaultEnv oracle now tb "/api/status" =
      (⟨500, .json (errorBody (.retryExhausted 3 (some (.upstream (errsF 0 2))))
        defaultEnv tb)⟩, [3]) := by
  have hcheck : ∀ a, check_product_for_store 608890 546 (oracle 0 a) =
      .error (.upstream (errsF 0 a)) := by
    intro a
    rw [h1 0 a]
    simp [check_product_for_store, gql, gqlDecode, h2 0 a,
      except_bind_ok, except_bind_error]
  have hstore : storeAttempt 608890 oracle 0 546 =
      (.error (.retryExhausted 3 (some (.upstream (errsF 0 2)))), 3) :=
    with_retry_three_fail _ _ _ _ (hcheck 0) (hcheck 1) (hcheck 2)
  have hloop : collectLoop 608890 oracle 0 defaultEnv.targetStores .null [] =
      (.error (.retryExhausted 3 (some (.upstream (errsF 0 2)))), [3]) := by
    rw [show defaultEnv.targetStores = [("Plano", 546), ("Lovers Lane", 552)]
      from rfl]
    simp only [collectLoop]
    rw [hstore]
  have hcollect : collect_status defaultEnv oracle now =
      (.error (.retryExhausted 3 (some (.upstream (errsF 0 2)))), [3]) := by
    unfold collect_status
    rw [show product_id_from_product_url defaultEnv.productPageUrl = .ok 608890
      from rfl]
    dsimp only []
    rw [hloop]
  have hroute : do_GET defaultEnv oracle now tb "/api/status" =
      (match collect_status defaultEnv oracle now with
       | (.ok snap, cs) => (⟨200, .json (snapshotJson snap)⟩, cs)
       | (.error er, cs) => (⟨500, .json (errorBody er defaultEnv tb)⟩, cs)) := rfl
  rw [hroute, hcollect]

/-- The body every call receives in the end-to-end failure scenario. -/
def downBody : List (String × Json) := [("errors", .arr [.str "down"])]

theorem c1_status_failure_witness :
    do_GET defaultEnv (fun _ _ => .okBody downBody) "T" "TB" "/api/status" =
      (⟨500, .json (errorBody
        (.retryExhausted 3 (some (.upstream (.arr [.str "down"]))))
        defaultEnv "TB")⟩, [3]) :=
  c1_status_failure (fun _ _ => .okBody downBody) (fun _ _ => downBody)
    (fun _ _ => .arr [.str "down"]) "T" "TB" (fun _ _ => rfl) (fun _ _ => rfl)

/-- With both configured stores and an upstream that always returns
`{"errors": ["down"]}`, the cycle performs 3 attempts in total — all
for the first store, none for the second — so "exactly 3 attempts per
configured store" fails: the attempt-count list has one entry, not one
per configured store. -/
theorem c1_status_failure_counterexample :
    (do_GET defaultEnv (fun _ _ => .okBody downBody) "T" "TB" "/api/status").2
      = [3] ∧
    defaultEnv.targetStores.length = 2 ∧
    ((do_GET defaultEnv (fun _ _ => .okBody downBody) "T" "TB" "/api/status").2).length
      ≠ defaultEnv.targetStores.length := by
  refine ⟨rfl, rfl, ?_⟩
  rw [show (do_GET defaultEnv (fun _ _ => .okBody downBody) "T" "TB"
    "/api/status").2 = [3] from rfl]
  decide

end GCC
